import Mathlib

/-!
Verification development for the revit-ai repository.

Part 1 embeds `lib/safety_validator.py`: the module-level operation
allowlist/blocklist, the `SafetyValidator` class with its three configured
ceilings, and `validate_action` together with its per-operation helpers.
Python dynamic values are embedded as `PyValue`; a raised `ValidationError`
is embedded as an `Except` error whose constructor records which raise
site produced it (the raise sites of the source have pairwise distinct
message texts, so distinct constructors model distinct messages).

Part 2 embeds `lib/external_event.py`: `RevitOperationRequest` with its
single-slot result queue (`Queue(maxsize=1)`), and
`RevitExternalEventHandler` with `queue_operation` and `Execute`.
The operation callable together with its bound arguments is embedded as a
function from the host document to a result-or-raised-exception; the host
document and results are embedded as natural numbers and exception objects
as strings, which is all the dispatcher ever inspects of them.
-/

set_option autoImplicit false

namespace RevitAI

/-- A Python runtime value, as far as the safety validator inspects one:
`None`, an integer, a string, or a dict with string keys (modelled as an
association list; Python dict keys are unique, lookup returns the first
match). -/
inductive PyValue where
  | noneVal
  | int (n : Int)
  | str (s : String)
  | dict (entries : List (String × PyValue))

/-- Dict key lookup, covering both `d[k]` and `k in d`. -/
def PyValue.lookup : List (String × PyValue) → String → Option PyValue
  | [], _ => Option.none
  | (k, v) :: rest, key => if k == key then Option.some v else PyValue.lookup rest key

/-- Python truthiness for the values `PyValue` covers
(`None`, `0`, the empty string and the empty dict are falsy). -/
def PyValue.truthy : PyValue → Bool
  | .noneVal => false
  | .int n => n != 0
  | .str s => s != ""
  | .dict d => !d.isEmpty

/-- Python `==` against a string literal: true exactly when the value is
that string. -/
def PyValue.eqStr : PyValue → String → Bool
  | .str s, t => s == t
  | _, _ => false

/-- Whether the value is a dict (`isinstance(action, dict)`). -/
def PyValue.isDict : PyValue → Bool
  | .dict _ => true
  | _ => false

/-- Python `v in l` for a collection of string literals: membership by
equality, so a non-string value is never a member. -/
def pyMem (v : PyValue) (l : List String) : Bool :=
  match v with
  | .str s => l.contains s
  | _ => false

/-- Python-style lexicographic less-or-equal on code-point lists. -/
def charsLe : List Char → List Char → Bool
  | [], _ => true
  | _ :: _, [] => false
  | a :: as, b :: bs => if a = b then charsLe as bs else decide (a < b)

/-- Python string less-or-equal (lexicographic by code point). -/
def strLe (s t : String) : Bool := charsLe s.toList t.toList

/-- Insert a string into a `strLe`-sorted list. -/
def insertStr (s : String) : List String → List String
  | [] => [s]
  | t :: ts => if strLe s t then s :: t :: ts else t :: insertStr s ts

/-- Python `sorted(...)` over strings (insertion sort, total via `strLe`). -/
def sortStrings : List String → List String
  | [] => []
  | s :: ss => insertStr s (sortStrings ss)

/-- Character-list prefix test, compared character by character. -/
def charsPre : List Char → List Char → Bool
  | [], _ => true
  | _ :: _, [] => false
  | p :: ps, c :: cs => p == c && charsPre ps cs

/-- Python `s.startswith(pre)`. -/
def strStartsWith (s pre : String) : Bool := charsPre pre.toList s.toList

/-- `ALLOWED_OPERATIONS` from safety_validator.py (a Python `set`;
modelled as the list of its literals). -/
def ALLOWED_OPERATIONS : List String :=
  ["create_dimensions", "create_tags", "read_elements"]

/-- `BLOCKED_OPERATIONS` from safety_validator.py. -/
def BLOCKED_OPERATIONS : List String :=
  ["delete_elements", "modify_walls", "modify_doors", "modify_rooms",
   "save_project", "close_project", "export_data", "import_data"]

/-- `DEFAULT_MAX_ELEMENTS` from safety_validator.py. -/
def DEFAULT_MAX_ELEMENTS : Int := 500
/-- `DEFAULT_MAX_DIMENSIONS` from safety_validator.py. -/
def DEFAULT_MAX_DIMENSIONS : Int := 1000
/-- `DEFAULT_MAX_TAGS` from safety_validator.py. -/
def DEFAULT_MAX_TAGS : Int := 1000

/-- The outcome of a raise inside `validate_action` and its helpers.
Each constructor corresponds to one raise site of the source, carrying the
data interpolated into that message which the claims talk about;
`pyError` stands for an uncaught Python-level error (a `TypeError` or
`AttributeError` on an ill-typed field), which is not a `ValidationError`
at all. -/
inductive VError where
  | notADict
  | missingOperation
  | forbiddenOperation (op : PyValue)
  | operationNotAllowed (op : PyValue) (permitted : List String)
  | dimScopeTooLarge (count maxElements : Int)
  | tooManyDimensions (count maxDimensions : Int)
  | invalidScope (scope : String)
  | tagScopeTooLarge (count maxElements : Int)
  | tooManyTags (count maxTags : Int)
  | invalidElementType (elementType : PyValue)
  | readScopeTooLarge (count maxDoubled : Int)
  | pyError

/-- A structural error: the action value itself is malformed (the spec
taxonomy calls this `StructuralError`). -/
def VError.isStructural : VError → Bool
  | .notADict => true
  | .missingOperation => true
  | _ => false

/-- A policy error: the action is well-formed but violates the safety
policy (the spec taxonomy calls this `PolicyRejection`: blocklist,
allowlist, ceiling, scope or element-type violation). -/
def VError.isPolicy : VError → Bool
  | .forbiddenOperation _ => true
  | .operationNotAllowed _ _ => true
  | .dimScopeTooLarge _ _ => true
  | .tooManyDimensions _ _ => true
  | .invalidScope _ => true
  | .tagScopeTooLarge _ _ => true
  | .tooManyTags _ _ => true
  | .invalidElementType _ => true
  | .readScopeTooLarge _ _ => true
  | _ => false

/-- `SafetyValidator.__init__`: the three ceilings read from configuration
(`safety.max_*_per_operation`, with the `DEFAULT_MAX_*` fallbacks for
missing keys). -/
structure SafetyValidator where
  max_elements : Int
  max_dimensions : Int
  max_tags : Int

/-- The validator obtained when the configuration supplies no overrides. -/
def defaultValidator : SafetyValidator :=
  { max_elements := DEFAULT_MAX_ELEMENTS,
    max_dimensions := DEFAULT_MAX_DIMENSIONS,
    max_tags := DEFAULT_MAX_TAGS }

/-- The `targets = action.get(..., \x7b\x7d)` idiom followed by attribute
access on the result: an absent key yields the empty dict, a dict value is
used as is, and any other value would raise `AttributeError` at the first
`.get` on it. -/
def getTargets (action : List (String × PyValue)) :
    Except VError (List (String × PyValue)) :=
  match PyValue.lookup action "targets" with
  | Option.none => Except.ok []
  | Option.some (PyValue.dict d) => Except.ok d
  | Option.some _ => Except.error VError.pyError

/-- The `d.get(key, 0)` idiom whose result is used in an integer
comparison: an absent key defaults to `0`, an integer is used as is, and
any other value would raise `TypeError` in the comparison. -/
def getIntField (d : List (String × PyValue)) (key : String) :
    Except VError Int :=
  match PyValue.lookup d key with
  | Option.none => Except.ok 0
  | Option.some (PyValue.int n) => Except.ok n
  | Option.some _ => Except.error VError.pyError

namespace SafetyValidator

/-- `SafetyValidator._validate_operation_allowed`: the blocklist is tested
first, then the allowlist; the allowlist rejection message carries
`sorted(ALLOWED_OPERATIONS)`. -/
def validate_operation_allowed (operation : PyValue) : Except VError Unit :=
  if pyMem operation BLOCKED_OPERATIONS then
    Except.error (VError.forbiddenOperation operation)
  else if !pyMem operation ALLOWED_OPERATIONS then
    Except.error (VError.operationNotAllowed operation (sortStrings ALLOWED_OPERATIONS))
  else
    Except.ok ()

/-- `SafetyValidator._validate_dimension_operation`: element-count ceiling
on `targets`, dimension-count ceiling on the action, then the scope check
(skipped for an absent or falsy scope; a truthy scope must be in the fixed
list or start with the level-name marker, and a truthy non-string scope
would hit the missing startswith attribute). -/
def validate_dimension_operation (v : SafetyValidator)
    (action : List (String × PyValue)) : Except VError Unit :=
  match getTargets action with
  | Except.error e => Except.error e
  | Except.ok targets =>
    match getIntField targets "element_count" with
    | Except.error e => Except.error e
    | Except.ok element_count =>
      if element_count > v.max_elements then
        Except.error (VError.dimScopeTooLarge element_count v.max_elements)
      else
        match getIntField action "estimated_dimension_count" with
        | Except.error e => Except.error e
        | Except.ok dimension_count =>
          if dimension_count > v.max_dimensions then
            Except.error (VError.tooManyDimensions dimension_count v.max_dimensions)
          else
            match PyValue.lookup targets "scope" with
            | Option.none => Except.ok ()
            | Option.some scope =>
              if scope.truthy then
                if pyMem scope ["current_view", "selected", "all"] then Except.ok ()
                else
                  match scope with
                  | PyValue.str s =>
                    if strStartsWith s "Level " then Except.ok ()
                    else Except.error (VError.invalidScope s)
                  | _ => Except.error VError.pyError
              else Except.ok ()

/-- `SafetyValidator._validate_tag_operation`: element-count ceiling on
`targets`, tag-count ceiling on the action, then the element-type check
(skipped for an absent or falsy element type). -/
def validate_tag_operation (v : SafetyValidator)
    (action : List (String × PyValue)) : Except VError Unit :=
  match getTargets action with
  | Except.error e => Except.error e
  | Except.ok targets =>
    match getIntField targets "element_count" with
    | Except.error e => Except.error e
    | Except.ok element_count =>
      if element_count > v.max_elements then
        Except.error (VError.tagScopeTooLarge element_count v.max_elements)
      else
        match getIntField action "estimated_tag_count" with
        | Except.error e => Except.error e
        | Except.ok tag_count =>
          if tag_count > v.max_tags then
            Except.error (VError.tooManyTags tag_count v.max_tags)
          else
            match PyValue.lookup targets "element_type" with
            | Option.none => Except.ok ()
            | Option.some element_type =>
              if element_type.truthy then
                if !pyMem element_type
                    ["Door", "Window", "Room", "Wall", "Floor", "Ceiling"] then
                  Except.error (VError.invalidElementType element_type)
                else Except.ok ()
              else Except.ok ()

/-- `SafetyValidator._validate_read_operation`: the element ceiling is
doubled for the read-only operation. -/
def validate_read_operation (v : SafetyValidator)
    (action : List (String × PyValue)) : Except VError Unit :=
  match getTargets action with
  | Except.error e => Except.error e
  | Except.ok targets =>
    match getIntField targets "element_count" with
    | Except.error e => Except.error e
    | Except.ok element_count =>
      if element_count > v.max_elements * 2 then
        Except.error (VError.readScopeTooLarge element_count (v.max_elements * 2))
      else Except.ok ()

/-- `SafetyValidator.validate_action`: structural checks, then the
blocklist/allowlist gate, then the per-operation dispatch (an allowed
operation matching none of the three known tags gets no further check). -/
def validate_action (v : SafetyValidator) (action : PyValue) :
    Except VError Unit :=
  match action with
  | PyValue.dict entries =>
    match PyValue.lookup entries "operation" with
    | Option.none => Except.error VError.missingOperation
    | Option.some operation =>
      match validate_operation_allowed operation with
      | Except.error e => Except.error e
      | Except.ok _ =>
        if operation.eqStr "create_dimensions" then
          v.validate_dimension_operation entries
        else if operation.eqStr "create_tags" then
          v.validate_tag_operation entries
        else if operation.eqStr "read_elements" then
          v.validate_read_operation entries
        else Except.ok ()
  | _ => Except.error VError.notADict

end SafetyValidator

/-- A `create_dimensions` action whose targets carry only an element
count. -/
def dimElemAction (c : Int) : PyValue :=
  PyValue.dict [("operation", PyValue.str "create_dimensions"),
    ("targets", PyValue.dict [("element_count", PyValue.int c)])]

/-- A `create_dimensions` action carrying only an estimated dimension
count. -/
def dimCountAction (c : Int) : PyValue :=
  PyValue.dict [("operation", PyValue.str "create_dimensions"),
    ("estimated_dimension_count", PyValue.int c)]

/-- A `create_tags` action whose targets carry only an element count. -/
def tagElemAction (c : Int) : PyValue :=
  PyValue.dict [("operation", PyValue.str "create_tags"),
    ("targets", PyValue.dict [("element_count", PyValue.int c)])]

/-- A `create_tags` action carrying only an estimated tag count. -/
def tagCountAction (c : Int) : PyValue :=
  PyValue.dict [("operation", PyValue.str "create_tags"),
    ("estimated_tag_count", PyValue.int c)]

/-- A `read_elements` action whose targets carry only an element count. -/
def readElemAction (c : Int) : PyValue :=
  PyValue.dict [("operation", PyValue.str "read_elements"),
    ("targets", PyValue.dict [("element_count", PyValue.int c)])]

/-- A `create_dimensions` action whose targets carry only a scope
string. -/
def scopeAction (s : String) : PyValue :=
  PyValue.dict [("operation", PyValue.str "create_dimensions"),
    ("targets", PyValue.dict [("scope", PyValue.str s)])]

/-- A `create_tags` action whose targets carry an element type and an
element count. -/
def tagTypeAction (t : String) (c : Int) : PyValue :=
  PyValue.dict [("operation", PyValue.str "create_tags"),
    ("targets", PyValue.dict [("element_type", PyValue.str t),
      ("element_count", PyValue.int c)])]

/-- A bounded channel of capacity one, the embedding of
`Queue(maxsize=1)`. -/
inductive Slot (α : Type) where
  | empty
  | full (val : α)

/-- `Queue(maxsize=1).put`: succeeds exactly when the slot is empty; a put
on a full slot would block the calling thread forever (embedded as
`Option.none`). -/
def Slot.put {α : Type} : Slot α → α → Option (Slot α)
  | .empty, a => Option.some (.full a)
  | .full _, _ => Option.none

/-- `RevitOperationRequest.__init__`: the operation callable (closed over
its args and kwargs), the single-slot result queue, and the optional
captured exception. -/
structure RevitOperationRequest where
  operation : Nat → Except String Nat
  result_queue : Slot (Except String Nat)
  exception : Option String

/-- A freshly constructed request: empty result slot, no exception. -/
def RevitOperationRequest.make (op : Nat → Except String Nat) :
    RevitOperationRequest :=
  { operation := op, result_queue := Slot.empty, exception := Option.none }

/-- `RevitOperationRequest.execute`: run the operation on the host
document and put either the success value or the caught exception into
the result queue (the one put of an execution attempt; `Option.none`
would mean the put blocked on an already-full slot). -/
def RevitOperationRequest.execute (req : RevitOperationRequest)
    (uidoc : Nat) : Option RevitOperationRequest :=
  match req.operation uidoc with
  | Except.ok r =>
    (req.result_queue.put (Except.ok r)).map fun q =>
      { req with result_queue := q }
  | Except.error e =>
    (req.result_queue.put (Except.error e)).map fun q =>
      { req with exception := Option.some e, result_queue := q }

/-- What `wait_for_result` does for the caller: the operation value, a
`RevitAPIError` wrapping a captured execution failure, or a
`TimeoutError`. -/
inductive WaitOutcome where
  | result (v : Nat)
  | revitApiError (cause : String)
  | timeoutError

/-- `RevitOperationRequest.wait_for_result`, for a call whose finite
timeout elapses whenever no completion has been posted: a waiting get on
the empty slot raises `Empty`, turned into `timeoutError`; a posted
completion is consumed from the slot and either returned or re-raised as
`revitApiError`. (A `None` timeout would block forever on the empty slot
and is not modelled.) -/
def RevitOperationRequest.wait_for_result (req : RevitOperationRequest) :
    WaitOutcome × RevitOperationRequest :=
  match req.result_queue with
  | Slot.full (Except.ok v) =>
    (WaitOutcome.result v, { req with result_queue := Slot.empty })
  | Slot.full (Except.error e) =>
    (WaitOutcome.revitApiError e, { req with result_queue := Slot.empty })
  | Slot.empty => (WaitOutcome.timeoutError, req)

/-- The `Autodesk.Revit.UI.Result` value the host event loop receives. -/
inductive HostResult where
  | Succeeded
  | Failed

/-- `RevitExternalEventHandler.__init__`: an unbounded request queue that
the source only ever writes to, and the current-request slot. -/
structure RevitExternalEventHandler where
  request_queue : List RevitOperationRequest
  current_request : Option RevitOperationRequest

/-- `RevitExternalEventHandler.Execute`, the host-side entry point: with
no current request it reports `Failed` without raising; otherwise it runs
the current request against the active document, clears the
current-request slot and reports `Succeeded`. The third component exposes
the executed request as updated in place (the caller holds the same
object); outer `Option.none` would mean the execution attempt blocked on
a full result slot. -/
def RevitExternalEventHandler.Execute (h : RevitExternalEventHandler)
    (uidoc : Nat) :
    Option (RevitExternalEventHandler × HostResult × Option RevitOperationRequest) :=
  match h.current_request with
  | Option.none => Option.some (h, HostResult.Failed, Option.none)
  | Option.some req =>
    (req.execute uidoc).map fun req2 =>
      ({ h with current_request := Option.none }, HostResult.Succeeded,
        Option.some req2)

/-- `RevitExternalEventHandler.queue_operation`: unconditionally build a
fresh request, append it to the request queue, install it as the current
request and hand it back to the caller. -/
def RevitExternalEventHandler.queue_operation (h : RevitExternalEventHandler)
    (op : Nat → Except String Nat) :
    RevitOperationRequest × RevitExternalEventHandler :=
  let request := RevitOperationRequest.make op
  (request,
    { request_queue := h.request_queue ++ [request],
      current_request := Option.some request })

/-- A first submission against a fresh handler. -/
def submitOnce : RevitOperationRequest × RevitExternalEventHandler :=
  RevitExternalEventHandler.queue_operation ⟨[], Option.none⟩
    (fun _ => Except.ok 1)

/-- A second submission while the first request is still pending. -/
def submitTwice : RevitOperationRequest × RevitExternalEventHandler :=
  submitOnce.2.queue_operation (fun _ => Except.ok 2)

/-! ## Claim theorems -/

/-- C1: for every action whose operation tag is in `BLOCKED_OPERATIONS`,
`validate_action` rejects with the forbidden (blocklist) message and not
the not-allowed (allowlist) message. The hypothesis places no constraint
on allowlist membership, so the conclusion holds in particular for a tag
that were also allowlisted: the blocklist test is performed strictly
first (with the concrete sets of the source the two are disjoint, so that
overlap case is vacuous). -/
theorem blocked_operation_rejected_forbidden (v : SafetyValidator)
    (entries : List (String × PyValue)) (op : PyValue)
    (hop : PyValue.lookup entries "operation" = Option.some op)
    (hb : pyMem op BLOCKED_OPERATIONS = true) :
    v.validate_action (PyValue.dict entries) =
      Except.error (VError.forbiddenOperation op)
    ∧ ∀ permitted,
        VError.forbiddenOperation op ≠ VError.operationNotAllowed op permitted := by
  constructor
  · simp [SafetyValidator.validate_action, hop,
      SafetyValidator.validate_operation_allowed, hb]
  · intro permitted h
    cases h

theorem blocked_operation_rejected_forbidden_witness :
    SafetyValidator.validate_action defaultValidator
      (PyValue.dict [("operation", PyValue.str "delete_elements")]) =
      Except.error (VError.forbiddenOperation (PyValue.str "delete_elements")) :=
  (blocked_operation_rejected_forbidden defaultValidator
    [("operation", PyValue.str "delete_elements")]
    (PyValue.str "delete_elements") rfl rfl).1

/-- C2: a non-dict action is rejected with the not-a-dict structural
error and a dict without an operation key with the missing-operation
structural error, for every configured validator alike; both reasons are
structural and every policy reason is not structural, so a structural
rejection is never a policy rejection, and no blocklist, allowlist or
scope result can be produced there. -/
theorem structural_error_before_policy (v : SafetyValidator)
    (action : PyValue) :
    (PyValue.isDict action = false →
      v.validate_action action = Except.error VError.notADict)
    ∧ (∀ entries, action = PyValue.dict entries →
        PyValue.lookup entries "operation" = Option.none →
        v.validate_action action = Except.error VError.missingOperation)
    ∧ VError.isStructural VError.notADict = true
    ∧ VError.isStructural VError.missingOperation = true
    ∧ (∀ e : VError, VError.isPolicy e = true → VError.isStructural e = false) := by
  refine ⟨?_, ?_, rfl, rfl, ?_⟩
  · intro h
    cases action <;> simp_all [SafetyValidator.validate_action, PyValue.isDict]
  · rintro entries rfl hnone
    simp [SafetyValidator.validate_action, hnone]
  · intro e he
    cases e <;> simp_all [VError.isPolicy, VError.isStructural]

theorem structural_error_before_policy_witness :
    SafetyValidator.validate_action defaultValidator (PyValue.int 7) =
      Except.error VError.notADict
    ∧ SafetyValidator.validate_action defaultValidator
        (PyValue.dict [("targets", PyValue.dict [])]) =
      Except.error VError.missingOperation :=
  ⟨(structural_error_before_policy defaultValidator (PyValue.int 7)).1 rfl,
   (structural_error_before_policy defaultValidator
      (PyValue.dict [("targets", PyValue.dict [])])).2.1
      [("targets", PyValue.dict [])] rfl rfl⟩

/-- C3: every numeric ceiling check of `validate_action` is inclusive:
for `create_dimensions` and `create_tags` a count equal to the configured
element, dimension or tag ceiling passes and ceiling plus one rejects,
and for the read-only operation the element ceiling is doubled before the
same inclusive comparison is applied. -/
theorem numeric_ceilings_inclusive (v : SafetyValidator)
    (he : 0 ≤ v.max_elements) (hd : 0 ≤ v.max_dimensions)
    (ht : 0 ≤ v.max_tags) :
    (v.validate_action (dimElemAction v.max_elements) = Except.ok ()
      ∧ v.validate_action (dimElemAction (v.max_elements + 1)) =
          Except.error (VError.dimScopeTooLarge (v.max_elements + 1) v.max_elements))
    ∧ (v.validate_action (dimCountAction v.max_dimensions) = Except.ok ()
      ∧ v.validate_action (dimCountAction (v.max_dimensions + 1)) =
          Except.error (VError.tooManyDimensions (v.max_dimensions + 1) v.max_dimensions))
    ∧ (v.validate_action (tagElemAction v.max_elements) = Except.ok ()
      ∧ v.validate_action (tagElemAction (v.max_elements + 1)) =
          Except.error (VError.tagScopeTooLarge (v.max_elements + 1) v.max_elements))
    ∧ (v.validate_action (tagCountAction v.max_tags) = Except.ok ()
      ∧ v.validate_action (tagCountAction (v.max_tags + 1)) =
          Except.error (VError.tooManyTags (v.max_tags + 1) v.max_tags))
    ∧ (v.validate_action (readElemAction (v.max_elements * 2)) = Except.ok ()
      ∧ v.validate_action (readElemAction (v.max_elements * 2 + 1)) =
          Except.error (VError.readScopeTooLarge (v.max_elements * 2 + 1)
            (v.max_elements * 2))) := by
  refine ⟨⟨?_, ?_⟩, ⟨?_, ?_⟩, ⟨?_, ?_⟩, ⟨?_, ?_⟩, ⟨?_, ?_⟩⟩ <;>
    simp [SafetyValidator.validate_action, SafetyValidator.validate_operation_allowed,
      SafetyValidator.validate_dimension_operation, SafetyValidator.validate_tag_operation,
      SafetyValidator.validate_read_operation, pyMem, PyValue.eqStr,
      dimElemAction, dimCountAction, tagElemAction, tagCountAction, readElemAction,
      getTargets, getIntField, PyValue.lookup, ALLOWED_OPERATIONS, BLOCKED_OPERATIONS] <;>
    omega

theorem numeric_ceilings_inclusive_witness :
    SafetyValidator.validate_action defaultValidator (dimElemAction 500) = Except.ok ()
    ∧ SafetyValidator.validate_action defaultValidator (dimElemAction 501) =
        Except.error (VError.dimScopeTooLarge 501 500)
    ∧ SafetyValidator.validate_action defaultValidator (readElemAction 1000) = Except.ok ()
    ∧ SafetyValidator.validate_action defaultValidator (readElemAction 1001) =
        Except.error (VError.readScopeTooLarge 1001 1000) :=
  ⟨(numeric_ceilings_inclusive defaultValidator (by decide) (by decide) (by decide)).1.1,
   (numeric_ceilings_inclusive defaultValidator (by decide) (by decide) (by decide)).1.2,
   (numeric_ceilings_inclusive defaultValidator (by decide) (by decide) (by decide)).2.2.2.2.1,
   (numeric_ceilings_inclusive defaultValidator (by decide) (by decide) (by decide)).2.2.2.2.2⟩

/-- C4 counterexample: the claim names the scope literals badly. The
scope string that the claim says is accepted, the string with a space, is
rejected by the code, whose literal uses an underscore instead. -/
theorem scope_claim_counterexample :
    SafetyValidator.validate_action defaultValidator (scopeAction "current view") =
      Except.error (VError.invalidScope "current view") := rfl

/-- C4 amended: for a `create_dimensions` action whose targets carry a
scope string, `validate_action` accepts exactly when the scope is the
empty string (a falsy scope skips the check entirely), one of the
literals with underscores (current_view, selected, all), or any string
starting with the level-name marker, the word Level followed by a space,
with an arbitrary remainder (including none); every other scope string is
rejected with the invalid-scope message. -/
theorem scope_check_amended (v : SafetyValidator)
    (he : 0 ≤ v.max_elements) (hd : 0 ≤ v.max_dimensions) (s : String) :
    (v.validate_action (scopeAction s) = Except.ok ()
      ↔ s = "" ∨ s = "current_view" ∨ s = "selected" ∨ s = "all"
        ∨ strStartsWith s "Level " = true)
    ∧ (¬ (s = "" ∨ s = "current_view" ∨ s = "selected" ∨ s = "all"
        ∨ strStartsWith s "Level " = true) →
      v.validate_action (scopeAction s) = Except.error (VError.invalidScope s)) := by
  have he2 : ¬ v.max_elements < (0 : Int) := by omega
  have hd2 : ¬ v.max_dimensions < (0 : Int) := by omega
  have key : v.validate_action (scopeAction s) =
      (if (s != "") = true then
        if s ∈ ["current_view", "selected", "all"] then Except.ok ()
        else if strStartsWith s "Level " = true then Except.ok ()
        else Except.error (VError.invalidScope s)
      else Except.ok ()) := by
    simp [SafetyValidator.validate_action, SafetyValidator.validate_operation_allowed,
      SafetyValidator.validate_dimension_operation, pyMem, PyValue.eqStr, PyValue.truthy,
      scopeAction, getTargets, getIntField, PyValue.lookup,
      ALLOWED_OPERATIONS, BLOCKED_OPERATIONS, he2, hd2]
  refine ⟨?_, ?_⟩ <;> rw [key] <;> split_ifs with h0 h1 h2 <;>
    simp_all [bne_iff_ne] <;> tauto

theorem scope_check_amended_witness :
    SafetyValidator.validate_action defaultValidator (scopeAction "Level 1") =
      Except.ok ()
    ∧ SafetyValidator.validate_action defaultValidator (scopeAction "east wing") =
        Except.error (VError.invalidScope "east wing") :=
  ⟨(scope_check_amended defaultValidator (by decide) (by decide) "Level 1").1.mpr
      (by decide),
   (scope_check_amended defaultValidator (by decide) (by decide) "east wing").2
      (by decide)⟩

/-- C5: for every operation tag in neither list, `validate_action`
rejects with the not-allowed message carrying `sorted` of the allowlist,
which enumerates the full allowed set in deterministically sorted
order. -/
theorem unknown_operation_enumerates_sorted_allowlist (v : SafetyValidator)
    (entries : List (String × PyValue)) (op : String)
    (hop : PyValue.lookup entries "operation" = Option.some (PyValue.str op))
    (ha : ALLOWED_OPERATIONS.contains op = false)
    (hb : BLOCKED_OPERATIONS.contains op = false) :
    v.validate_action (PyValue.dict entries) =
      Except.error (VError.operationNotAllowed (PyValue.str op)
        (sortStrings ALLOWED_OPERATIONS))
    ∧ sortStrings ALLOWED_OPERATIONS =
        ["create_dimensions", "create_tags", "read_elements"]
    ∧ (∀ s : String, s ∈ sortStrings ALLOWED_OPERATIONS ↔ s ∈ ALLOWED_OPERATIONS)
    ∧ List.Pairwise (fun a b => strLe a b = true) (sortStrings ALLOWED_OPERATIONS) := by
  have ha2 : op ∉ ALLOWED_OPERATIONS := by simpa using ha
  have hb2 : op ∉ BLOCKED_OPERATIONS := by simpa using hb
  refine ⟨?_, rfl, ?_, by decide⟩
  · simp [SafetyValidator.validate_action, hop,
      SafetyValidator.validate_operation_allowed, pyMem, ha2, hb2]
  · intro s
    rw [show sortStrings ALLOWED_OPERATIONS = ALLOWED_OPERATIONS from rfl]

theorem unknown_operation_enumerates_sorted_allowlist_witness :
    SafetyValidator.validate_action defaultValidator
      (PyValue.dict [("operation", PyValue.str "unknown_operation")]) =
      Except.error (VError.operationNotAllowed (PyValue.str "unknown_operation")
        ["create_dimensions", "create_tags", "read_elements"]) :=
  (unknown_operation_enumerates_sorted_allowlist defaultValidator
    [("operation", PyValue.str "unknown_operation")] "unknown_operation"
    rfl rfl rfl).1

/-- C6 counterexample: an element type that is present but empty is not a
member of the allowed-type list, yet the action passes, because the
truthiness test skips the type check for a falsy value. -/
theorem tag_type_claim_counterexample :
    SafetyValidator.validate_action defaultValidator (tagTypeAction "" 3) =
      Except.ok () := rfl

/-- C6 amended: for every `create_tags` action whose element type is
present with a non-empty value outside the fixed allowed-type list,
`validate_action` rejects with the invalid-element-type message even when
the element count is within its ceiling (and the estimated tag count,
absent here, defaults to zero); a present but falsy element type skips
the check. In particular the Stair action with three elements is
rejected. -/
theorem tag_element_type_amended (v : SafetyValidator) (ht : 0 ≤ v.max_tags)
    (t : String) (c : Int) (hne : t ≠ "")
    (hmem : t ∉ ["Door", "Window", "Room", "Wall", "Floor", "Ceiling"])
    (hc : c ≤ v.max_elements) :
    v.validate_action (tagTypeAction t c) =
      Except.error (VError.invalidElementType (PyValue.str t))
    ∧ SafetyValidator.validate_action defaultValidator (tagTypeAction "Stair" 3) =
      Except.error (VError.invalidElementType (PyValue.str "Stair")) := by
  have hc2 : ¬ v.max_elements < c := by omega
  have ht2 : ¬ v.max_tags < (0 : Int) := by omega
  refine ⟨?_, rfl⟩
  simp [SafetyValidator.validate_action, SafetyValidator.validate_operation_allowed,
    SafetyValidator.validate_tag_operation, pyMem, PyValue.eqStr, PyValue.truthy,
    tagTypeAction, getTargets, getIntField, PyValue.lookup,
    ALLOWED_OPERATIONS, BLOCKED_OPERATIONS, hc2, ht2, hne, hmem]

theorem tag_element_type_amended_witness :
    SafetyValidator.validate_action defaultValidator (tagTypeAction "Stair" 3) =
      Except.error (VError.invalidElementType (PyValue.str "Stair")) :=
  (tag_element_type_amended defaultValidator (by decide) "Stair" 3
    (by decide) (by decide) (by decide)).1

/-- C7 counterexample: with the first request still pending (its result
slot empty), a second submission is not rejected: it returns a fresh
request, silently replaces the pending one in the current-request slot,
and both requests sit in the request queue. -/
theorem pending_submission_counterexample :
    (submitOnce.2.current_request.map fun r => r.result_queue) =
      Option.some Slot.empty
    ∧ (submitOnce.2.current_request.map fun r => r.operation 0) =
        Option.some (Except.ok 1)
    ∧ submitTwice.1.operation 0 = Except.ok 2
    ∧ (submitTwice.2.current_request.map fun r => r.operation 0) =
        Option.some (Except.ok 2)
    ∧ (submitTwice.2.request_queue.map fun r => r.operation 0) =
        [Except.ok 1, Except.ok 2] :=
  ⟨rfl, rfl, rfl, rfl, rfl⟩

/-- C7 amended: `queue_operation` never rejects: in every dispatcher
state, pending request or not, it creates a fresh request with an empty
result slot, appends it to the request queue, and installs it as the
current request, silently replacing whatever was there (last write
wins). -/
theorem queue_operation_amended (h : RevitExternalEventHandler)
    (op : Nat → Except String Nat) :
    (h.queue_operation op).2.current_request =
      Option.some (h.queue_operation op).1
    ∧ (h.queue_operation op).2.request_queue =
        h.request_queue ++ [(h.queue_operation op).1]
    ∧ (h.queue_operation op).1.result_queue = Slot.empty
    ∧ (h.queue_operation op).1.operation = op :=
  ⟨rfl, rfl, rfl, rfl⟩

/-- C8: waiting on a request whose completion channel is empty with an
elapsed timeout yields the timeout outcome, distinct by construction from
the execution-failure and success outcomes; and a completion that arrives
after that timed-out wait is absorbed by the single-slot channel: the
execution attempt performs its one put successfully (no block, no raise),
leaving the slot holding exactly the one completion value, which no one
consumes. -/
theorem wait_timeout_then_late_completion (req : RevitOperationRequest)
    (hpending : req.result_queue = Slot.empty) :
    req.wait_for_result = (WaitOutcome.timeoutError, req)
    ∧ (∀ e, WaitOutcome.timeoutError ≠ WaitOutcome.revitApiError e)
    ∧ (∀ r, WaitOutcome.timeoutError ≠ WaitOutcome.result r)
    ∧ ∀ uidoc, req.wait_for_result.2.execute uidoc =
        Option.some { req with
          result_queue := Slot.full (req.operation uidoc),
          exception := match req.operation uidoc with
            | Except.ok _ => req.exception
            | Except.error e => Option.some e } := by
  obtain ⟨op, rq, exc⟩ := req
  cases hpending
  refine ⟨rfl, ?_, ?_, ?_⟩
  · intro e h
    exact WaitOutcome.noConfusion h
  · intro r h
    exact WaitOutcome.noConfusion h
  intro uidoc
  cases hop : op uidoc <;>
    simp [RevitOperationRequest.wait_for_result, RevitOperationRequest.execute,
      Slot.put, hop]

theorem wait_timeout_then_late_completion_witness :
    RevitOperationRequest.wait_for_result
        ⟨fun _ => Except.ok 7, Slot.empty, Option.none⟩ =
      (WaitOutcome.timeoutError, ⟨fun _ => Except.ok 7, Slot.empty, Option.none⟩)
    ∧ RevitOperationRequest.execute
        ⟨fun _ => Except.ok 7, Slot.empty, Option.none⟩ 0 =
      Option.some ⟨fun _ => Except.ok 7, Slot.full (Except.ok 7), Option.none⟩ :=
  ⟨(wait_timeout_then_late_completion
      ⟨fun _ => Except.ok 7, Slot.empty, Option.none⟩ rfl).1,
   (wait_timeout_then_late_completion
      ⟨fun _ => Except.ok 7, Slot.empty, Option.none⟩ rfl).2.2.2 0⟩

/-- C9: the host-side entry point with no request queued reports Failed
without raising and changes nothing; with a pending request queued it
executes it, writes exactly one value into the single-slot completion
channel, either the return value or the raised exception (also recorded
in the exception field), clears the current request, and reports
Succeeded whether the operation returned or raised. -/
theorem execute_host_entry_spec (h : RevitExternalEventHandler) (uidoc : Nat) :
    (h.current_request = Option.none →
      h.Execute uidoc = Option.some (h, HostResult.Failed, Option.none))
    ∧ ∀ req, h.current_request = Option.some req →
        req.result_queue = Slot.empty →
        h.Execute uidoc = Option.some
          ({ h with current_request := Option.none }, HostResult.Succeeded,
            Option.some { req with
              result_queue := Slot.full (req.operation uidoc),
              exception := match req.operation uidoc with
                | Except.ok _ => req.exception
                | Except.error e => Option.some e }) := by
  constructor
  · intro hnone
    simp [RevitExternalEventHandler.Execute, hnone]
  · intro req hcur hslot
    obtain ⟨op, rq, exc⟩ := req
    cases hslot
    cases hop : op uidoc <;>
      simp [RevitExternalEventHandler.Execute, hcur, RevitOperationRequest.execute,
        Slot.put, hop]

theorem execute_host_entry_spec_witness :
    RevitExternalEventHandler.Execute ⟨[], Option.none⟩ 0 =
      Option.some (⟨[], Option.none⟩, HostResult.Failed, Option.none)
    ∧ RevitExternalEventHandler.Execute
        ⟨[], Option.some ⟨fun _ => Except.error "boom", Slot.empty, Option.none⟩⟩ 0 =
      Option.some (⟨[], Option.none⟩, HostResult.Succeeded,
        Option.some ⟨fun _ => Except.error "boom", Slot.full (Except.error "boom"),
          Option.some "boom"⟩) :=
  ⟨(execute_host_entry_spec ⟨[], Option.none⟩ 0).1 rfl,
   (execute_host_entry_spec
      ⟨[], Option.some ⟨fun _ => Except.error "boom", Slot.empty, Option.none⟩⟩ 0).2
      ⟨fun _ => Except.error "boom", Slot.empty, Option.none⟩ rfl rfl⟩

/-- C10: an action whose operation tag is allowlisted and not blocklisted
and whose targets key (and, with it, every count field) is absent passes
validation: the counts default to zero, which every inclusive ceiling
check accepts, and the scope and element-type checks are skipped. -/
theorem missing_targets_accepted (v : SafetyValidator)
    (he : 0 ≤ v.max_elements) (hd : 0 ≤ v.max_dimensions) (ht : 0 ≤ v.max_tags)
    (entries : List (String × PyValue)) (op : String)
    (hop : PyValue.lookup entries "operation" = Option.some (PyValue.str op))
    (hallow : ALLOWED_OPERATIONS.contains op = true)
    (hblock : BLOCKED_OPERATIONS.contains op = false)
    (htargets : PyValue.lookup entries "targets" = Option.none)
    (hdim : PyValue.lookup entries "estimated_dimension_count" = Option.none)
    (htag : PyValue.lookup entries "estimated_tag_count" = Option.none) :
    v.validate_action (PyValue.dict entries) = Except.ok () := by
  have he2 : ¬ v.max_elements < (0 : Int) := by omega
  have hd2 : ¬ v.max_dimensions < (0 : Int) := by omega
  have ht2 : ¬ v.max_tags < (0 : Int) := by omega
  have he4 : ¬ v.max_elements * 2 < (0 : Int) := by omega
  have ha2 : op ∈ ALLOWED_OPERATIONS := by simpa using hallow
  simp only [ALLOWED_OPERATIONS, List.mem_cons, List.mem_singleton,
    List.not_mem_nil, or_false] at ha2
  rcases ha2 with rfl | rfl | rfl <;>
    simp [SafetyValidator.validate_action, SafetyValidator.validate_operation_allowed,
      SafetyValidator.validate_dimension_operation, SafetyValidator.validate_tag_operation,
      SafetyValidator.validate_read_operation, pyMem, PyValue.eqStr,
      getTargets, getIntField, hop, htargets, hdim, htag,
      ALLOWED_OPERATIONS, BLOCKED_OPERATIONS, PyValue.lookup, he2, hd2, ht2, he4]

theorem missing_targets_accepted_witness :
    SafetyValidator.validate_action defaultValidator
      (PyValue.dict [("operation", PyValue.str "read_elements")]) = Except.ok () :=
  missing_targets_accepted defaultValidator (by decide) (by decide) (by decide)
    [("operation", PyValue.str "read_elements")] "read_elements"
    rfl rfl rfl rfl rfl rfl

end RevitAI
